import Mathlib

/-!
Shallow embedding of the honeypot orchestrator in `main.py`: the per-turn
request handler `handle_honeypot_request`, the in-memory `session_store`
(a Python dict, modelled as an insertion-ordered association list), the
Gemini gateway call (modelled by an oracle describing the outcome of the
single `requests.post` + two-layer parse), and the final-report dispatcher
`send_final_report`.  Optional JSON object keys are modelled with `Option`:
`none` means the key is absent from the dict.
-/

set_option autoImplicit false

namespace Honeypot

/-- A conversation turn as a JSON object: the code reads the keys `sender`,
`text` and `timestamp` with `.get`, so each may be absent (`none`). -/
structure Turn where
  sender : Option String
  text : Option String
  timestamp : Option String
deriving DecidableEq, Repr

/-- The `extractedIntelligence` JSON object.  The response schema lists five
category keys but does not require them, and the code stores the dict
verbatim, so each key may be absent (`none`) or hold a list of strings. -/
structure Intelligence where
  bankAccounts : Option (List String)
  upiIds : Option (List String)
  phishingLinks : Option (List String)
  phoneNumbers : Option (List String)
  suspiciousKeywords : Option (List String)
deriving DecidableEq, Repr

/-- The Python literal `{}`: a dict with no category keys present. -/
def Intelligence.empty : Intelligence := ⟨none, none, none, none, none⟩

/-- The parsed `model_output` dict (`json.loads(model_output_text)`): the
code reads every field with `.get`, so each of the four fields may be
absent. -/
structure ModelOutput where
  agentResponseText : Option String
  isConversationOver : Option Bool
  extractedIntelligence : Option Intelligence
  agentNotes : Option String
deriving DecidableEq, Repr

/-- One entry of `session_store`: the dict
`{"history": ..., "intelligence": ..., "agent_notes": ...}` written at
lines 169-173 of `main.py`. -/
structure Session where
  history : List Turn
  intelligence : Intelligence
  agent_notes : String
deriving DecidableEq, Repr

/-- The in-memory `session_store` dict, as an insertion-ordered association
list from session id to session state. -/
def SessionStore : Type := List (String × Session)

instance : DecidableEq SessionStore := by
  unfold SessionStore
  infer_instance

instance : Repr SessionStore := by
  unfold SessionStore
  infer_instance

/-- Dict lookup `session_store[session_id]` / `session_id in session_store`. -/
def storeLookup : SessionStore → String → Option Session
  | [], _ => none
  | (k, v) :: rest, sid => if k = sid then some v else storeLookup rest sid

/-- Dict assignment `session_store[session_id] = ...`: replaces the value in
place when the key exists, otherwise appends the new entry. -/
def storeInsert : SessionStore → String → Session → SessionStore
  | [], sid, s => [(sid, s)]
  | (k, v) :: rest, sid, s =>
      if k = sid then (sid, s) :: rest else (k, v) :: storeInsert rest sid s

/-- Dict deletion `del session_store[session_id]` (guarded by a membership
test in the code, so a missing key is simply a no-op). -/
def storeErase : SessionStore → String → SessionStore
  | [], _ => []
  | (k, v) :: rest, sid =>
      if k = sid then rest else (k, v) :: storeErase rest sid

/-- The JSON body of the inbound request.  `request.get_json()` may return
nothing (`none` body); `sessionId`, `message` and `conversationHistory` are
keys that may each be absent. -/
structure Body where
  sessionId : Option String
  message : Option Turn
  conversationHistory : Option (List Turn)
deriving DecidableEq, Repr

/-- The inbound HTTP request: the `x-api-key` header (absent = `none`) and
the JSON body. -/
structure Request where
  apiKeyHeader : Option String
  body : Option Body
deriving DecidableEq, Repr

/-- The JSON responses the handler can return: every `jsonify` call in
`main.py` produces either an error object `{"status": "error", "message"}`
with an HTTP status code, or the success object of line 183-190. -/
inductive HResponse where
  | error (statusCode : Nat) (message : String)
  | success (agentReply : Option String) (conversationIsOver : Bool)
      (sessionId : String) (extractedIntelligence : Intelligence)
      (agentNotes : String)
deriving DecidableEq, Repr

/-- Whether a response is one of the error shapes. -/
def HResponse.isError : HResponse → Bool
  | .error _ _ => true
  | .success _ _ _ _ _ => false

/-- Oracle for the single Gemini call of a turn: the observable outcome of
`requests.post(GEMINI_API_ENDPOINT, ...)` followed by `raise_for_status`,
`response.json()`, the `candidates[0]...` extraction and
`json.loads(model_output_text)`.
* `transportError`: `requests.post` itself raises (`RequestException` that
  is not an `HTTPError`, e.g. connection failure or timeout);
* `httpError`: the response has a 4xx/5xx status, so `raise_for_status`
  raises `requests.exceptions.HTTPError`;
* `envelopeError`: `response.json()` or the `candidates` indexing fails;
* `payloadError`: `json.loads` on the embedded text fails;
* `ok`: both layers parse, yielding the `model_output` dict. -/
inductive GatewayOutcome where
  | transportError
  | httpError
  | envelopeError
  | payloadError
  | ok (model_output : ModelOutput)
deriving DecidableEq, Repr

/-- Whether the gateway oracle reports a fully parsed model output. -/
def GatewayOutcome.isOk : GatewayOutcome → Bool
  | .ok _ => true
  | _ => false

/-- Oracle for the report dispatcher's `requests.post`: either it returns a
response with some status code, or it raises a `requests.RequestException`. -/
inductive ReportOutcome where
  | delivered (statusCode : Nat)
  | requestException
deriving DecidableEq, Repr

/-- The `requests.post(endpoint, json=payload, timeout=10)` call inside
`send_final_report`: `.ok code` is a returned response with that status,
`.error ()` is a raised `requests.RequestException`. -/
def requests_post_report : ReportOutcome → Except Unit Nat
  | .delivered code => .ok code
  | .requestException => .error ()

/-- `send_final_report` (lines 77-93): posts the payload; a non-200 status
is only printed, and a raised `RequestException` is caught and printed, so
the function returns normally (`.ok ()`) in every case.  An uncaught
exception would be `.error`. -/
def send_final_report (outcome : ReportOutcome) : Except Unit Unit :=
  match requests_post_report outcome with
  | .ok _code => .ok ()
  | .error _e => .ok ()

/-- The ambient configuration and external-world behaviour of one turn:
the configured secret `YOUR_API_KEY`, the outcome of the turn's Gemini
call, and the outcome of the report post (used only on terminal turns). -/
structure Env where
  apiKey : String
  gateway : GatewayOutcome
  report : ReportOutcome
deriving DecidableEq, Repr

/-- Everything one handler invocation produces: the session store after the
turn, the HTTP response, whether the Gemini endpoint was called, and
whether `send_final_report` was invoked. -/
structure TurnResult where
  store : SessionStore
  response : HResponse
  gatewayCalled : Bool
  reportSent : Bool
deriving DecidableEq, Repr

/-- The authentication guard of lines 101-103:
`if not api_key or api_key != YOUR_API_KEY`.  A missing header and an
empty-string header are both falsy. -/
def authFailed (env : Env) (req : Request) : Bool :=
  match req.apiKeyHeader with
  | none => true
  | some k => k == "" || k != env.apiKey

/-- History resolution of lines 113-115:
`conversation_history = data.get('conversationHistory', [])` followed by
`if not conversation_history and session_id in session_store:
conversation_history = session_store[session_id].get('history', [])`. -/
def resolveHistory (store : SessionStore) (session_id : String)
    (ch : Option (List Turn)) : List Turn :=
  let conversation_history := ch.getD []
  if conversation_history = [] then
    match storeLookup store session_id with
    | some sess => sess.history
    | none => conversation_history
  else conversation_history

/-- The agent turn appended at lines 163-167:
`{"sender": "agent", "text": agent_reply_text, "timestamp": "N/A"}`. -/
def agentTurnOf (model_output : ModelOutput) : Turn :=
  ⟨some "agent", model_output.agentResponseText, some "N/A"⟩

/-- The body of the `try` block after validation (lines 146-213): gateway
call, session mutation, optional finalization, and the `except` clauses.
Only `requests.exceptions.HTTPError` reaches the 502 handler; every other
exception (transport failure, unparsable envelope or payload) falls into
`except Exception` and yields the 500 internal-error response. -/
def handleTurn (env : Env) (store : SessionStore) (data : Body)
    (session_id : String) (incoming_message : Turn) : TurnResult :=
  let conversation_history := resolveHistory store session_id data.conversationHistory
  match env.gateway with
  | .transportError => ⟨store, .error 500 "Internal server error", true, false⟩
  | .envelopeError => ⟨store, .error 500 "Internal server error", true, false⟩
  | .payloadError => ⟨store, .error 500 "Internal server error", true, false⟩
  | .httpError => ⟨store, .error 502 "AI Service Error", true, false⟩
  | .ok model_output =>
    let agent_reply_text := model_output.agentResponseText
    let is_over := model_output.isConversationOver.getD false
    let intelligence := model_output.extractedIntelligence.getD Intelligence.empty
    let agent_notes := model_output.agentNotes.getD ""
    let new_history := conversation_history ++
      [incoming_message, agentTurnOf model_output]
    let store1 := storeInsert store session_id ⟨new_history, intelligence, agent_notes⟩
    if is_over then
      match send_final_report env.report with
      | .ok _ =>
          ⟨storeErase store1 session_id,
           .success agent_reply_text is_over session_id intelligence agent_notes,
           true, true⟩
      | .error _ =>
          ⟨store1, .error 500 "Internal server error", true, true⟩
    else
      ⟨store1,
       .success agent_reply_text is_over session_id intelligence agent_notes,
       true, false⟩

/-- `handle_honeypot_request` (lines 97-213): authentication, body
validation, then the turn body `handleTurn`. -/
def handle_honeypot_request (env : Env) (store : SessionStore)
    (req : Request) : TurnResult :=
  if authFailed env req then
    ⟨store, .error 401 "Unauthorized", false, false⟩
  else
    match req.body with
    | none => ⟨store, .error 400 "Invalid request body", false, false⟩
    | some data =>
      match data.sessionId, data.message with
      | some session_id, some incoming_message =>
          handleTurn env store data session_id incoming_message
      | none, _ => ⟨store, .error 400 "Invalid request body", false, false⟩
      | some _, none => ⟨store, .error 400 "Invalid request body", false, false⟩

/-- The intelligence value a successful turn stores and returns:
`model_output.get("extractedIntelligence", {})`. -/
def intelD (model_output : ModelOutput) : Intelligence :=
  model_output.extractedIntelligence.getD Intelligence.empty

/-- The notes value a successful turn stores and returns:
`model_output.get("agentNotes", "")`. -/
def notesD (model_output : ModelOutput) : String :=
  model_output.agentNotes.getD ""

/-- A correctly authenticated request carrying a session id and a message
but no `conversationHistory` key (the stateful-caller pattern). -/
def mkReq (key session_id : String) (msg : Turn) : Request :=
  ⟨some key, some ⟨some session_id, some msg, none⟩⟩

/-- One turn of a stateful caller driving session `session_id`: the incoming
message and the model output the gateway returns for it. -/
def turnStep (key session_id : String) (ro : ReportOutcome)
    (st : SessionStore) (p : Turn × ModelOutput) : SessionStore :=
  (handle_honeypot_request ⟨key, .ok p.2, ro⟩ st (mkReq key session_id p.1)).store

/-- Running a sequence of successful turns against an initially empty
session store, keeping only the store (the response of each turn is the
handler's). -/
def runSession (key session_id : String) (ro : ReportOutcome)
    (steps : List (Turn × ModelOutput)) : SessionStore :=
  steps.foldl (turnStep key session_id ro) []

/-- The history such a run is expected to build: per step, the incoming
message followed by the agent turn. -/
def histOf : List (Turn × ModelOutput) → List Turn
  | [] => []
  | p :: rest => p.1 :: agentTurnOf p.2 :: histOf rest

/-- The last step of a run, if any. -/
def lastStep : List (Turn × ModelOutput) → Option (Turn × ModelOutput)
  | [] => none
  | [p] => some p
  | _ :: p :: rest => lastStep (p :: rest)

/-- The keys of the store, in order. -/
def storeKeys (st : SessionStore) : List String := st.map Prod.fst

/-- The history the store holds for a session id, empty when the id is
unknown. -/
def storedHistory (st : SessionStore) (session_id : String) : List Turn :=
  ((storeLookup st session_id).map Session.history).getD []

/-- The model output of the last step of a run (arbitrary when empty). -/
def lastOut (steps : List (Turn × ModelOutput)) : ModelOutput :=
  match lastStep steps with
  | some p => p.2
  | none => ⟨none, none, none, none⟩

/-- The input-validation guard of lines 106-108:
`if not data or 'sessionId' not in data or 'message' not in data`. -/
def validationFailed (req : Request) : Bool :=
  match req.body with
  | none => true
  | some data => data.sessionId.isNone || data.message.isNone

/-- The `extractedIntelligence` field of a response, present only on the
success shape. -/
def HResponse.intel : HResponse → Option Intelligence
  | .error _ _ => none
  | .success _ _ _ i _ => some i

/-! Concrete turns, model outputs and stores used by the witness and
counterexample theorems below. -/

def c1msg1 : Turn := ⟨some "scammer", some "pay me now", none⟩

def c1out1 : ModelOutput :=
  ⟨some "how do I pay", some false,
   some ⟨none, some ["scammer@upi"], none, none, none⟩, some "upi seen"⟩

def c1msg2 : Turn := ⟨some "scammer", some "did you pay", none⟩

def c1out2 : ModelOutput :=
  ⟨some "not yet", some false, none, some "stalling"⟩

def c2sess : Session :=
  ⟨[⟨some "scammer", some "hi", none⟩], Intelligence.empty, "old notes"⟩

def c2store : SessionStore := [("s", c2sess)]

def c2req : Request := mkReq "k" "s" ⟨some "scammer", some "hello again", none⟩

def c3msg : Turn := ⟨some "scammer", some "hi", none⟩

def c3out : ModelOutput := ⟨none, none, none, none⟩

def c4msg : Turn := ⟨some "scammer", some "bye", none⟩

def c4out : ModelOutput :=
  ⟨some "goodbye", some true,
   some ⟨some ["1234"], none, none, none, none⟩, some "done"⟩

def c4req : Request := mkReq "k" "s" c4msg

def c4env : Env := ⟨"k", .ok c4out, .delivered 200⟩

def c5steps : List (Turn × ModelOutput) :=
  [(⟨some "scammer", some "hello", none⟩,
    ⟨some "hi, who is this?", some false, some Intelligence.empty, some ""⟩),
   (⟨some "scammer", some "your parcel is held", none⟩,
    ⟨some "which parcel?", some false, some Intelligence.empty, some ""⟩)]

def c6msg : Turn := ⟨some "scammer", some "last chance", none⟩

def c6out : ModelOutput :=
  ⟨some "I already paid", some true,
   some ⟨none, some ["test@upi"], none, none, none⟩, some "wrap up"⟩

def c6req : Request := mkReq "k" "s" c6msg

def c6env : Env := ⟨"k", .ok c6out, .requestException⟩

def c6env2 : Env := ⟨"k", .ok c6out, .delivered 503⟩

def c7reqNoKey : Request :=
  ⟨none, some ⟨some "s", some ⟨some "scammer", some "hi", none⟩, none⟩⟩

def c7reqNoSession : Request :=
  ⟨some "k", some ⟨none, some ⟨some "scammer", some "hi", none⟩, none⟩⟩

def c7env : Env := ⟨"k", .ok ⟨some "r", some false, none, some ""⟩, .delivered 200⟩

def c8msg : Turn := ⟨some "scammer", some "send to test@upi", none⟩

def c8out : ModelOutput :=
  ⟨some "what is that?", some false,
   some ⟨none, some ["test@upi"], none, none, none⟩, some "delta has only upiIds"⟩

def c8req : Request := mkReq "k" "s" c8msg

def c9msg : Turn := ⟨some "scammer", some "hi", none⟩

def c9req : Request := mkReq "k" "s" c9msg

def c10turn : Turn := ⟨some "scammer", some "stored msg", none⟩

def c10sess : Session := ⟨[c10turn], Intelligence.empty, "n"⟩

def c10store : SessionStore := [("s", c10sess)]

def c10supplied : List Turn := [⟨some "scammer", some "caller copy", none⟩]

theorem storeLookup_insert_self (st : SessionStore) (sid : String) (s : Session) :
    storeLookup (storeInsert st sid s) sid = some s := by
  induction st with
  | nil => simp [storeInsert, storeLookup]
  | cons kv rest ih =>
      obtain ⟨k, v⟩ := kv
      by_cases hk : k = sid <;> simp [storeInsert, storeLookup, hk, ih]

theorem storeLookup_eq_none_of_not_mem (st : SessionStore) (sid : String)
    (h : sid ∉ storeKeys st) : storeLookup st sid = none := by
  induction st with
  | nil => simp [storeLookup]
  | cons kv rest ih =>
      obtain ⟨k, v⟩ := kv
      simp only [storeKeys, List.map_cons, List.mem_cons] at h
      push_neg at h
      have hk : ¬ k = sid := fun hh => h.1 hh.symm
      simp [storeLookup, hk, ih (by simpa [storeKeys] using h.2)]

theorem storeLookup_erase_self (st : SessionStore) (sid : String)
    (hnd : (storeKeys st).Nodup) :
    storeLookup (storeErase st sid) sid = none := by
  induction st with
  | nil => simp [storeErase, storeLookup]
  | cons kv rest ih =>
      obtain ⟨k, v⟩ := kv
      simp only [storeKeys, List.map_cons, List.nodup_cons] at hnd
      by_cases hk : k = sid
      · subst hk
        simpa [storeErase] using
          storeLookup_eq_none_of_not_mem rest k hnd.1
      · simp [storeErase, storeLookup, hk, ih hnd.2]

theorem storeKeys_insert (st : SessionStore) (sid : String) (s : Session) :
    storeKeys (storeInsert st sid s) =
      if sid ∈ storeKeys st then storeKeys st else storeKeys st ++ [sid] := by
  induction st with
  | nil => simp [storeInsert, storeKeys]
  | cons kv rest ih =>
      obtain ⟨k, v⟩ := kv
      by_cases hk : k = sid
      · subst hk
        simp [storeInsert, storeKeys]
      · have hk' : ¬ sid = k := fun hh => hk hh.symm
        simp only [storeInsert, hk, if_false, storeKeys, List.map_cons,
          List.mem_cons, hk', false_or]
        simp only [storeKeys] at ih
        rw [ih]
        by_cases hm : sid ∈ List.map Prod.fst rest <;> simp [hm]

theorem storeKeys_insert_nodup (st : SessionStore) (sid : String) (s : Session)
    (hnd : (storeKeys st).Nodup) :
    (storeKeys (storeInsert st sid s)).Nodup := by
  rw [storeKeys_insert]
  by_cases hm : sid ∈ storeKeys st
  · simpa [hm] using hnd
  · simp only [hm, if_false, List.nodup_append]
    refine ⟨hnd, List.nodup_singleton sid, ?_⟩
    intro a ha hb
    simp only [List.mem_singleton] at hb
    subst hb
    exact hm ha

theorem send_final_report_ok (outcome : ReportOutcome) :
    send_final_report outcome = .ok () := by
  cases outcome <;> rfl

theorem handle_valid (env : Env) (st : SessionStore) (req : Request)
    (data : Body) (session_id : String) (msg : Turn)
    (hauth : authFailed env req = false) (hbody : req.body = some data)
    (hsid : data.sessionId = some session_id) (hmsg : data.message = some msg) :
    handle_honeypot_request env st req = handleTurn env st data session_id msg := by
  simp [handle_honeypot_request, hauth, hbody, hsid, hmsg]

theorem handleTurn_ok_nonterminal (env : Env) (st : SessionStore) (data : Body)
    (session_id : String) (msg : Turn) (out : ModelOutput)
    (hgw : env.gateway = .ok out)
    (hnt : out.isConversationOver.getD false = false) :
    handleTurn env st data session_id msg =
      ⟨storeInsert st session_id
         ⟨resolveHistory st session_id data.conversationHistory ++
            [msg, agentTurnOf out], intelD out, notesD out⟩,
       .success out.agentResponseText false session_id (intelD out) (notesD out),
       true, false⟩ := by
  simp [handleTurn, hgw, hnt, intelD, notesD]

theorem handleTurn_ok_terminal (env : Env) (st : SessionStore) (data : Body)
    (session_id : String) (msg : Turn) (out : ModelOutput)
    (hgw : env.gateway = .ok out)
    (hover : out.isConversationOver.getD false = true) :
    handleTurn env st data session_id msg =
      ⟨storeErase
         (storeInsert st session_id
            ⟨resolveHistory st session_id data.conversationHistory ++
               [msg, agentTurnOf out], intelD out, notesD out⟩) session_id,
       .success out.agentResponseText true session_id (intelD out) (notesD out),
       true, true⟩ := by
  simp [handleTurn, hgw, hover, intelD, notesD, send_final_report_ok]

theorem resolveHistory_of_lookup_none (st : SessionStore)
    (session_id : String) (h : storeLookup st session_id = none) :
    resolveHistory st session_id none = [] ∧
    resolveHistory st session_id (some []) = [] := by
  constructor <;> simp [resolveHistory, h]

theorem resolveHistory_none (st : SessionStore) (session_id : String) :
    resolveHistory st session_id none = storedHistory st session_id := by
  unfold resolveHistory storedHistory
  cases h : storeLookup st session_id <;> simp [h]

theorem turnStep_store (key session_id : String) (ro : ReportOutcome)
    (st : SessionStore) (p : Turn × ModelOutput) (hkey : key ≠ "")
    (hnt : p.2.isConversationOver.getD false = false) :
    turnStep key session_id ro st p =
      storeInsert st session_id
        ⟨storedHistory st session_id ++ [p.1, agentTurnOf p.2],
         intelD p.2, notesD p.2⟩ := by
  unfold turnStep
  rw [handle_valid ⟨key, .ok p.2, ro⟩ st (mkReq key session_id p.1)
      ⟨some session_id, some p.1, none⟩ session_id p.1
      (by simp [authFailed, mkReq, hkey]) rfl rfl rfl]
  rw [handleTurn_ok_nonterminal _ _ _ _ _ p.2 rfl hnt]
  simp [resolveHistory_none]

theorem runFrom_lookup (key session_id : String) (ro : ReportOutcome)
    (hkey : key ≠ "") :
    ∀ steps : List (Turn × ModelOutput), steps ≠ [] →
      (∀ p ∈ steps, p.2.isConversationOver.getD false = false) →
      ∀ st : SessionStore,
        storeLookup (steps.foldl (turnStep key session_id ro) st) session_id =
          some ⟨storedHistory st session_id ++ histOf steps,
                intelD (lastOut steps), notesD (lastOut steps)⟩ := by
  intro steps
  induction steps with
  | nil => intro h; exact absurd rfl h
  | cons p rest ih =>
      intro _ hnt st
      have hp := hnt p (List.mem_cons_self p rest)
      have hsh : storedHistory (turnStep key session_id ro st p) session_id =
          storedHistory st session_id ++ [p.1, agentTurnOf p.2] := by
        rw [turnStep_store key session_id ro st p hkey hp]
        simp [storedHistory, storeLookup_insert_self]
      cases rest with
      | nil =>
          simp only [List.foldl_cons, List.foldl_nil]
          rw [turnStep_store key session_id ro st p hkey hp,
            storeLookup_insert_self]
          simp [histOf, lastOut, lastStep]
      | cons q rest' =>
          rw [List.foldl_cons]
          rw [ih (by simp) (fun x hx => hnt x (List.mem_cons_of_mem p hx))
            (turnStep key session_id ro st p)]
          rw [hsh]
          simp [histOf, lastOut, lastStep, List.append_assoc]

theorem histOf_length (steps : List (Turn × ModelOutput)) :
    (histOf steps).length = 2 * steps.length := by
  induction steps with
  | nil => rfl
  | cons p rest ih =>
      simp only [histOf, List.length_cons, ih]
      omega

theorem runSession_lookup (key session_id : String) (ro : ReportOutcome)
    (steps : List (Turn × ModelOutput)) (hkey : key ≠ "") (hne : steps ≠ [])
    (hnt : ∀ p ∈ steps, p.2.isConversationOver.getD false = false) :
    storeLookup (runSession key session_id ro steps) session_id =
      some ⟨histOf steps, intelD (lastOut steps), notesD (lastOut steps)⟩ := by
  have := runFrom_lookup key session_id ro hkey steps hne hnt []
  simpa [runSession, storedHistory, storeLookup] using this

/-- C2: if the Gemini call fails in any way (transport error, non-success
status, unparsable envelope, or unparsable embedded payload), the turn
returns an error response and the session store is exactly what it was
before the attempt; in particular no entry is created for an unknown
session id. -/
theorem C2_gateway_failure_atomic (env : Env) (st : SessionStore)
    (req : Request) (hgw : env.gateway.isOk = false) :
    (handle_honeypot_request env st req).store = st ∧
    ((handle_honeypot_request env st req).response).isError = true := by
  obtain ⟨ak, gw, ro⟩ := env
  by_cases hauth : authFailed ⟨ak, gw, ro⟩ req
  · simp [handle_honeypot_request, hauth, HResponse.isError]
  · simp only [Bool.not_eq_true] at hauth
    obtain ⟨hdr, body⟩ := req
    cases body with
    | none => simp [handle_honeypot_request, hauth, HResponse.isError]
    | some data =>
        obtain ⟨osid, omsg, och⟩ := data
        cases osid with
        | none => simp [handle_honeypot_request, hauth, HResponse.isError]
        | some session_id =>
            cases omsg with
            | none => simp [handle_honeypot_request, hauth, HResponse.isError]
            | some msg =>
                cases gw with
                | ok out => simp [GatewayOutcome.isOk] at hgw
                | transportError =>
                    simp [handle_honeypot_request, hauth, handleTurn,
                      HResponse.isError]
                | httpError =>
                    simp [handle_honeypot_request, hauth, handleTurn,
                      HResponse.isError]
                | envelopeError =>
                    simp [handle_honeypot_request, hauth, handleTurn,
                      HResponse.isError]
                | payloadError =>
                    simp [handle_honeypot_request, hauth, handleTurn,
                      HResponse.isError]

/-- C2 witness: a transport failure on a request for a stored session
leaves the store unchanged and produces an error response. -/
theorem C2_gateway_failure_atomic_witness :
    (Env.mk "k" .transportError .requestException).gateway.isOk = false ∧
    ((handle_honeypot_request ⟨"k", .transportError, .requestException⟩
        c2store c2req).store = c2store ∧
     ((handle_honeypot_request ⟨"k", .transportError, .requestException⟩
        c2store c2req).response).isError = true) :=
  ⟨rfl, C2_gateway_failure_atomic ⟨"k", .transportError, .requestException⟩
    c2store c2req rfl⟩

/-- C5: for a fresh session driven by a caller that supplies no explicit
history, after N successful (non-terminal) turns the stored history is
exactly `histOf steps` — per turn the incoming scammer message followed by
the agent turn, in append order — and its length is 2N. -/
theorem C5_history_shape (key session_id : String) (ro : ReportOutcome)
    (steps : List (Turn × ModelOutput)) (hkey : key ≠ "") (hne : steps ≠ [])
    (hnt : ∀ p ∈ steps, p.2.isConversationOver.getD false = false) :
    (storeLookup (runSession key session_id ro steps) session_id).map
        Session.history = some (histOf steps) ∧
    (histOf steps).length = 2 * steps.length := by
  refine ⟨?_, histOf_length steps⟩
  rw [runSession_lookup key session_id ro steps hkey hne hnt]
  rfl

/-- C5 witness: a concrete two-turn run yields a stored history of length
4 in scammer-agent-scammer-agent order. -/
theorem C5_history_shape_witness :
    ("k" : String) ≠ "" ∧ c5steps ≠ [] ∧
    (∀ p ∈ c5steps, p.2.isConversationOver.getD false = false) ∧
    ((storeLookup (runSession "k" "s" .requestException c5steps) "s").map
        Session.history = some (histOf c5steps) ∧
     (histOf c5steps).length = 2 * c5steps.length) :=
  ⟨by decide, by decide, by decide,
   C5_history_shape "k" "s" .requestException c5steps (by decide) (by decide)
     (by decide)⟩

/-- C7: authentication and validation precede all state changes.  A failed
`x-api-key` check returns the 401 error with the store untouched and the
gateway not called; a request that passes authentication but lacks a body,
`sessionId` or `message` returns the 400 error, again with the store
untouched and the gateway not called. -/
theorem C7_boundary_checks (env : Env) (st : SessionStore) (req : Request) :
    (authFailed env req = true →
      handle_honeypot_request env st req =
        ⟨st, .error 401 "Unauthorized", false, false⟩) ∧
    (authFailed env req = false → validationFailed req = true →
      handle_honeypot_request env st req =
        ⟨st, .error 400 "Invalid request body", false, false⟩) := by
  constructor
  · intro h
    simp [handle_honeypot_request, h]
  · intro h hv
    obtain ⟨hdr, body⟩ := req
    cases body with
    | none => simp [handle_honeypot_request, h]
    | some data =>
        obtain ⟨osid, omsg, och⟩ := data
        simp only [validationFailed] at hv
        cases osid with
        | none => simp [handle_honeypot_request, h]
        | some session_id =>
            cases omsg with
            | none => simp [handle_honeypot_request, h]
            | some msg => simp [Option.isNone] at hv

/-- C7 witness: a request with no `x-api-key` header gets the 401 error and
a request with no `sessionId` gets the 400 error; in both cases the store
is unchanged and the gateway uncalled. -/
theorem C7_boundary_checks_witness :
    handle_honeypot_request c7env c2store c7reqNoKey =
      ⟨c2store, .error 401 "Unauthorized", false, false⟩ ∧
    handle_honeypot_request c7env c2store c7reqNoSession =
      ⟨c2store, .error 400 "Invalid request body", false, false⟩ :=
  ⟨(C7_boundary_checks c7env c2store c7reqNoKey).1 rfl,
   (C7_boundary_checks c7env c2store c7reqNoSession).2 rfl rfl⟩

/-- C10: a caller-supplied `conversationHistory` that is the empty list is
treated exactly like an absent one — the stored history is used when the
session id is known — and a non-empty caller-supplied history is used
verbatim, taking precedence over stored state. -/
theorem C10_empty_history_like_absent (st : SessionStore)
    (session_id : String) (sess : Session) (ch : List Turn)
    (hlk : storeLookup st session_id = some sess) (hne : ch ≠ []) :
    resolveHistory st session_id (some []) =
      resolveHistory st session_id none ∧
    resolveHistory st session_id (some []) = sess.history ∧
    resolveHistory st session_id (some ch) = ch := by
  refine ⟨?_, ?_, ?_⟩ <;> simp [resolveHistory, hlk, hne]

/-- C10 witness: with a stored session, an empty supplied history resolves
to the stored one and a non-empty supplied history wins. -/
theorem C10_empty_history_like_absent_witness :
    storeLookup c10store "s" = some c10sess ∧ c10supplied ≠ [] ∧
    (resolveHistory c10store "s" (some []) =
       resolveHistory c10store "s" none ∧
     resolveHistory c10store "s" (some []) = c10sess.history ∧
     resolveHistory c10store "s" (some c10supplied) = c10supplied) :=
  ⟨by decide, by decide,
   C10_empty_history_like_absent c10store "s" c10sess c10supplied (by decide)
     (by decide)⟩

/-- C4: a turn whose model output has `isConversationOver` true evicts the
session: afterwards the session id is not retrievable from the store, and
a later request for the same id that supplies no history (or an empty
history list) resolves to the empty history, i.e. starts a brand-new
session. -/
theorem C4_termination_final (env : Env) (st : SessionStore) (req : Request)
    (data : Body) (session_id : String) (msg : Turn) (out : ModelOutput)
    (hnd : (storeKeys st).Nodup)
    (hauth : authFailed env req = false) (hbody : req.body = some data)
    (hsid : data.sessionId = some session_id) (hmsg : data.message = some msg)
    (hgw : env.gateway = .ok out)
    (hover : out.isConversationOver.getD false = true) :
    storeLookup (handle_honeypot_request env st req).store session_id = none ∧
    resolveHistory (handle_honeypot_request env st req).store session_id
      none = [] ∧
    resolveHistory (handle_honeypot_request env st req).store session_id
      (some []) = [] := by
  rw [handle_valid env st req data session_id msg hauth hbody hsid hmsg,
      handleTurn_ok_terminal env st data session_id msg out hgw hover]
  have hl : storeLookup (storeErase (storeInsert st session_id
      ⟨resolveHistory st session_id data.conversationHistory ++
         [msg, agentTurnOf out], intelD out, notesD out⟩) session_id)
      session_id = none :=
    storeLookup_erase_self _ _ (storeKeys_insert_nodup st session_id _ hnd)
  exact ⟨hl, (resolveHistory_of_lookup_none _ _ hl).1,
    (resolveHistory_of_lookup_none _ _ hl).2⟩

/-- C4 witness: a terminal turn on a stored session leaves the id
unretrievable and a follow-up with no history starts empty. -/
theorem C4_termination_final_witness :
    (storeKeys c2store).Nodup ∧
    (storeLookup (handle_honeypot_request c4env c2store c4req).store "s" =
       none ∧
     resolveHistory (handle_honeypot_request c4env c2store c4req).store "s"
       none = [] ∧
     resolveHistory (handle_honeypot_request c4env c2store c4req).store "s"
       (some []) = []) :=
  ⟨by decide,
   C4_termination_final c4env c2store c4req ⟨some "s", some c4msg, none⟩ "s"
     c4msg c4out (by decide) (by decide) rfl rfl rfl rfl (by decide)⟩

/-- C6: `send_final_report` returns normally for every outcome of the
report post (delivered with any status, or a raised request exception), and
on a terminal turn — whatever that outcome — the dispatcher is invoked, the
session is still evicted, and the caller still receives the success
response with `conversationIsOver` true. -/
theorem C6_report_failure_harmless (env : Env) (st : SessionStore)
    (req : Request) (data : Body) (session_id : String) (msg : Turn)
    (out : ModelOutput) (hnd : (storeKeys st).Nodup)
    (hauth : authFailed env req = false) (hbody : req.body = some data)
    (hsid : data.sessionId = some session_id) (hmsg : data.message = some msg)
    (hgw : env.gateway = .ok out)
    (hover : out.isConversationOver.getD false = true) :
    send_final_report env.report = Except.ok () ∧
    (handle_honeypot_request env st req).reportSent = true ∧
    storeLookup (handle_honeypot_request env st req).store session_id =
      none ∧
    (handle_honeypot_request env st req).response =
      .success out.agentResponseText true session_id (intelD out)
        (notesD out) := by
  rw [handle_valid env st req data session_id msg hauth hbody hsid hmsg,
      handleTurn_ok_terminal env st data session_id msg out hgw hover]
  exact ⟨send_final_report_ok env.report, rfl,
    storeLookup_erase_self _ _ (storeKeys_insert_nodup st session_id _ hnd),
    rfl⟩

/-- C6 witness: with the report post raising a request exception, and with
it returning a 503 status, the terminal turn still evicts the session and
returns the success response. -/
theorem C6_report_failure_harmless_witness :
    (send_final_report c6env.report = Except.ok () ∧
     (handle_honeypot_request c6env c2store c6req).reportSent = true ∧
     storeLookup (handle_honeypot_request c6env c2store c6req).store "s" =
       none ∧
     (handle_honeypot_request c6env c2store c6req).response =
       .success c6out.agentResponseText true "s" (intelD c6out)
         (notesD c6out)) ∧
    (send_final_report c6env2.report = Except.ok () ∧
     (handle_honeypot_request c6env2 c2store c6req).reportSent = true ∧
     storeLookup (handle_honeypot_request c6env2 c2store c6req).store "s" =
       none ∧
     (handle_honeypot_request c6env2 c2store c6req).response =
       .success c6out.agentResponseText true "s" (intelD c6out)
         (notesD c6out)) :=
  ⟨C6_report_failure_harmless c6env c2store c6req ⟨some "s", some c6msg, none⟩
     "s" c6msg c6out (by decide) (by decide) rfl rfl rfl rfl (by decide),
   C6_report_failure_harmless c6env2 c2store c6req ⟨some "s", some c6msg, none⟩
     "s" c6msg c6out (by decide) (by decide) rfl rfl rfl rfl (by decide)⟩

/-- C1 counterexample: intelligence accumulation is not monotonic.  On a
two-turn session, turn 1's delta puts `scammer@upi` into the stored
`upiIds`, but after turn 2 — whose delta omits `extractedIntelligence`
entirely, so the code stores `{}` — the stored record no longer contains
it: the store after turn 2 is not a superset of the store after turn 1. -/
theorem C1_counterexample :
    "scammer@upi" ∈
      (((storeLookup (runSession "k" "s" .requestException [(c1msg1, c1out1)])
          "s").map (fun sess => sess.intelligence.upiIds.getD [])).getD []) ∧
    "scammer@upi" ∉
      (((storeLookup (runSession "k" "s" .requestException
          [(c1msg1, c1out1), (c1msg2, c1out2)])
          "s").map (fun sess => sess.intelligence.upiIds.getD [])).getD []) := by
  decide

/-- C1 amended: the handler performs no union.  After any non-empty run of
successful non-terminal turns, the stored Intelligence Record is exactly
the last turn's `extractedIntelligence` value (defaulting to `{}` when the
field is absent) — each turn replaces the cumulative record rather than
merging into it, so prior turns' findings are kept only if the model
re-sends them. -/
theorem C1_intelligence_replaced (key session_id : String)
    (ro : ReportOutcome) (steps : List (Turn × ModelOutput))
    (hkey : key ≠ "") (hne : steps ≠ [])
    (hnt : ∀ p ∈ steps, p.2.isConversationOver.getD false = false) :
    (storeLookup (runSession key session_id ro steps) session_id).map
        Session.intelligence = some (intelD (lastOut steps)) := by
  rw [runSession_lookup key session_id ro steps hkey hne hnt]
  rfl

/-- C1 amended witness: on the concrete two-turn run, the stored record is
the second turn's (empty) delta. -/
theorem C1_intelligence_replaced_witness :
    ("k" : String) ≠ "" ∧ [(c1msg1, c1out1), (c1msg2, c1out2)] ≠ [] ∧
    (∀ p ∈ [(c1msg1, c1out1), (c1msg2, c1out2)],
      p.2.isConversationOver.getD false = false) ∧
    (storeLookup (runSession "k" "s" .requestException
        [(c1msg1, c1out1), (c1msg2, c1out2)]) "s").map Session.intelligence =
      some (intelD (lastOut [(c1msg1, c1out1), (c1msg2, c1out2)])) :=
  ⟨by decide, by decide, by decide,
   C1_intelligence_replaced "k" "s" .requestException
     [(c1msg1, c1out1), (c1msg2, c1out2)] (by decide) (by decide) (by decide)⟩

/-- C3 counterexample: a model output missing all four required fields is
not treated as a protocol violation.  The turn succeeds, returning the
success shape with every field silently defaulted (`agentReply` null,
`conversationIsOver` false, `extractedIntelligence` `{}`, `agentNotes`
empty), rather than aborting with a gateway protocol failure. -/
theorem C3_counterexample :
    (handle_honeypot_request ⟨"k", .ok c3out, .requestException⟩ []
        (mkReq "k" "s" c3msg)).response =
      .success none false "s" Intelligence.empty "" ∧
    ((handle_honeypot_request ⟨"k", .ok c3out, .requestException⟩ []
        (mkReq "k" "s" c3msg)).response).isError = false := by
  decide

/-- C3 amended: a parsed model output with any (or all) of the four fields
absent is accepted, each missing field replaced by a default —
`agentResponseText` by null, `isConversationOver` by false,
`extractedIntelligence` by `{}`, `agentNotes` by the empty string — and the
turn completes as a success built from those defaults. -/
theorem C3_missing_fields_defaulted (env : Env) (st : SessionStore)
    (req : Request) (data : Body) (session_id : String) (msg : Turn)
    (out : ModelOutput)
    (hauth : authFailed env req = false) (hbody : req.body = some data)
    (hsid : data.sessionId = some session_id) (hmsg : data.message = some msg)
    (hgw : env.gateway = .ok out) :
    (handle_honeypot_request env st req).response =
      .success out.agentResponseText (out.isConversationOver.getD false)
        session_id (out.extractedIntelligence.getD Intelligence.empty)
        (out.agentNotes.getD "") := by
  rw [handle_valid env st req data session_id msg hauth hbody hsid hmsg]
  cases hov : out.isConversationOver.getD false
  · rw [handleTurn_ok_nonterminal env st data session_id msg out hgw hov]
    simp [intelD, notesD]
  · rw [handleTurn_ok_terminal env st data session_id msg out hgw hov]
    simp [intelD, notesD]

/-- C3 amended witness: the all-fields-missing output yields the fully
defaulted success response. -/
theorem C3_missing_fields_defaulted_witness :
    (handle_honeypot_request ⟨"k", .ok c3out, .requestException⟩ c2store
        (mkReq "k" "s2" c3msg)).response =
      .success c3out.agentResponseText (c3out.isConversationOver.getD false)
        "s2" (c3out.extractedIntelligence.getD Intelligence.empty)
        (c3out.agentNotes.getD "") :=
  C3_missing_fields_defaulted ⟨"k", .ok c3out, .requestException⟩ c2store
    (mkReq "k" "s2" c3msg) ⟨some "s2", some c3msg, none⟩ "s2" c3msg c3out
    (by decide) rfl rfl rfl rfl

/-- C8 counterexample: the five category keys are not always present.  On a
successful turn whose delta contains only `upiIds`, the stored and
returned Intelligence Record has no `bankAccounts`, `phishingLinks`,
`phoneNumbers` or `suspiciousKeywords` key at all (modelled as `none`),
violating the every-key-always-present invariant. -/
theorem C8_counterexample :
    ((handle_honeypot_request ⟨"k", .ok c8out, .requestException⟩ []
        c8req).response).intel =
      some ⟨none, some ["test@upi"], none, none, none⟩ ∧
    ((storeLookup (handle_honeypot_request ⟨"k", .ok c8out,
        .requestException⟩ [] c8req).store "s").map
        (fun sess => sess.intelligence.bankAccounts)) = some none := by
  decide

/-- C8 amended: after a successful non-terminal turn the stored session and
the success response both carry the model's `extractedIntelligence` dict
verbatim (`{}` when the field is absent): a category key is present exactly
when the model's output included it, so absent categories are not filled in
as empty collections. -/
theorem C8_intelligence_verbatim (env : Env) (st : SessionStore)
    (req : Request) (data : Body) (session_id : String) (msg : Turn)
    (out : ModelOutput)
    (hauth : authFailed env req = false) (hbody : req.body = some data)
    (hsid : data.sessionId = some session_id) (hmsg : data.message = some msg)
    (hgw : env.gateway = .ok out)
    (hnt : out.isConversationOver.getD false = false) :
    ((handle_honeypot_request env st req).response).intel =
      some (out.extractedIntelligence.getD Intelligence.empty) ∧
    (storeLookup (handle_honeypot_request env st req).store session_id).map
        Session.intelligence =
      some (out.extractedIntelligence.getD Intelligence.empty) := by
  rw [handle_valid env st req data session_id msg hauth hbody hsid hmsg,
      handleTurn_ok_nonterminal env st data session_id msg out hgw hnt]
  refine ⟨rfl, ?_⟩
  rw [show (⟨storeInsert st session_id
      ⟨resolveHistory st session_id data.conversationHistory ++
         [msg, agentTurnOf out], intelD out, notesD out⟩,
      .success out.agentResponseText false session_id (intelD out)
        (notesD out), true, false⟩ : TurnResult).store =
    storeInsert st session_id
      ⟨resolveHistory st session_id data.conversationHistory ++
         [msg, agentTurnOf out], intelD out, notesD out⟩ from rfl]
  rw [storeLookup_insert_self]
  rfl

/-- C8 amended witness: the upiIds-only delta is returned and stored with
exactly that one key. -/
theorem C8_intelligence_verbatim_witness :
    ((handle_honeypot_request ⟨"k", .ok c8out, .requestException⟩ []
        c8req).response).intel =
      some (c8out.extractedIntelligence.getD Intelligence.empty) ∧
    (storeLookup (handle_honeypot_request ⟨"k", .ok c8out,
        .requestException⟩ [] c8req).store "s").map Session.intelligence =
      some (c8out.extractedIntelligence.getD Intelligence.empty) :=
  C8_intelligence_verbatim ⟨"k", .ok c8out, .requestException⟩ [] c8req
    ⟨some "s", some c8msg, none⟩ "s" c8msg c8out (by decide) rfl rfl rfl rfl
    (by decide)

/-- C9 counterexample: a failing transport call does not get the
upstream-failure status.  When `requests.post` itself raises, the handler
returns the 500 internal-server-error response — indistinguishable from an
unexpected internal fault — while the 502 upstream status is produced only
when the collaborator returns a non-success HTTP status. -/
theorem C9_counterexample :
    (handle_honeypot_request ⟨"k", .transportError, .requestException⟩ []
        c9req).response = .error 500 "Internal server error" ∧
    (handle_honeypot_request ⟨"k", .httpError, .requestException⟩ []
        c9req).response = .error 502 "AI Service Error" := by
  decide

/-- C9 amended: only a non-success HTTP status from the collaborator
(`raise_for_status` raising `HTTPError`) yields the 502 upstream-failure
response; a failed transport call, an unparsable envelope and an
unparsable embedded payload all fall to the generic 500 internal-failure
response.  Every such failure response is the pure error shape, carrying
no field of the success shape. -/
theorem C9_status_classification (env : Env) (st : SessionStore)
    (req : Request) (data : Body) (session_id : String) (msg : Turn)
    (hauth : authFailed env req = false) (hbody : req.body = some data)
    (hsid : data.sessionId = some session_id)
    (hmsg : data.message = some msg) :
    (env.gateway = .httpError →
      (handle_honeypot_request env st req).response =
        .error 502 "AI Service Error") ∧
    (env.gateway = .transportError ∨ env.gateway = .envelopeError ∨
        env.gateway = .payloadError →
      (handle_honeypot_request env st req).response =
        .error 500 "Internal server error") ∧
    (env.gateway.isOk = false →
      ((handle_honeypot_request env st req).response).intel = none) := by
  rw [handle_valid env st req data session_id msg hauth hbody hsid hmsg]
  refine ⟨?_, ?_, ?_⟩
  · intro hg
    simp [handleTurn, hg]
  · intro hg
    rcases hg with hg | hg | hg <;> simp [handleTurn, hg]
  · intro hg
    cases hgw : env.gateway with
    | ok out => rw [hgw] at hg; simp [GatewayOutcome.isOk] at hg
    | transportError => simp [handleTurn, hgw, HResponse.intel]
    | httpError => simp [handleTurn, hgw, HResponse.intel]
    | envelopeError => simp [handleTurn, hgw, HResponse.intel]
    | payloadError => simp [handleTurn, hgw, HResponse.intel]

/-- C9 amended witness: at a concrete authenticated request, the transport
failure maps to 500 and carries no success field. -/
theorem C9_status_classification_witness :
    (handle_honeypot_request ⟨"k", .transportError, .requestException⟩ []
        c9req).response = .error 500 "Internal server error" ∧
    ((handle_honeypot_request ⟨"k", .transportError, .requestException⟩ []
        c9req).response).intel = none :=
  ⟨(C9_status_classification ⟨"k", .transportError, .requestException⟩ []
      c9req ⟨some "s", some c9msg, none⟩ "s" c9msg (by decide) rfl rfl
      rfl).2.1 (Or.inl rfl),
   (C9_status_classification ⟨"k", .transportError, .requestException⟩ []
      c9req ⟨some "s", some c9msg, none⟩ "s" c9msg (by decide) rfl rfl
      rfl).2.2 rfl⟩

end Honeypot
